import Mathlib

/-!
Shallow embedding of `dsync/http.go` from github.com/jonnycrunch/dag: the HTTP
binding of the dsync transport capability.  `HTTPClient` methods are modelled
as functions of the HTTP exchange they perform; `HTTPRemoteHandler` is
modelled per request method as a function from the parsed request (query map,
decoded body) to the response written.  Query strings are modelled as finite
maps from keys to values (Go's `url.Values` with single-valued keys; the
client base URL is modelled as carrying no query parameters of its own, and
`url.Values.Set` / `FormValue` become map insert / lookup).  JSON
encoding/decoding is modelled as exact: a wire body is a tagged value, and
decoding succeeds exactly on a body of the expected tag.

The `dag` package types (`dag.Info`, `dag.Manifest`), the `Dsync` engine and
the error/status values from `dsync.go` are repository code not present under
`src/`; they are modelled from the spec where so marked.
-/

namespace DagSync

/-- Query strings / Go string maps: finite maps from string keys to string
values. -/
abbrev QMap := Finmap (fun _ : String => String)

/-- `r.FormValue(key)`: the query value for `key`, or `""` when absent. -/
def formValue (q : QMap) (key : String) : String :=
  (q.lookup key).getD ""

/-- Modelled from the spec: Go `error` values reaching the HTTP binding.
`removeNotSupported` is the distinguished sentinel `ErrRemoveNotSupported`
(defined in the repository's `dsync.go`, not under `src/`; the spec gives no
message text, so a fixed string stands in for it); `notFound` is the spec's
`NotFound` condition; `mkError` is any other error, carrying only its
serialized message as `fmt.Errorf` builds it. -/
inductive GoError
  | removeNotSupported
  | notFound
  | mkError (msg : String)
deriving DecidableEq

/-- `err.Error()`: the serialized message of an error. -/
def GoError.message : GoError → String
  | .removeNotSupported => "remove is not supported"
  | .notFound => "not found"
  | .mkError m => m

/-- The distinguished remove-not-supported sentinel. -/
def ErrRemoveNotSupported : GoError := .removeNotSupported

/-- Modelled from the spec: `dag.Manifest`, a list of block identifiers (the
spec treats manifests as opaque lists of identifiers). -/
structure Manifest where
  nodes : List String
deriving DecidableEq

/-- Modelled from the spec: `dag.Info`, an ordered sequence of
(BlockID, byte size, child BlockIDs) entries. -/
structure Info where
  entries : List (String × Nat × List String)
deriving DecidableEq

/-- Modelled from the spec / the constants referenced by `http.go`: the
status carried by a `ReceiveResponse` — Stored / Retryable-failure /
Fatal-failure. -/
inductive ReceiveStatus
  | ok
  | retry
  | errored
deriving DecidableEq

def StatusOk : ReceiveStatus := .ok

def StatusRetry : ReceiveStatus := .retry

def StatusErrored : ReceiveStatus := .errored

/-- Modelled from the spec: the per-block transfer outcome `ReceiveResponse`
(defined in `dsync.go`, not under `src/`): the block id it refers to, a
status, and an optional error. -/
structure ReceiveResponse where
  Hash : String
  Status : ReceiveStatus
  Err : Option GoError
deriving DecidableEq

/-- The message the handler writes for a response's `Err` field (Go calls
`res.Err.Error()`; a nil `Err` on a failure status would panic in Go, so the
`none` case is given the empty message and never arises on the paths the
theorems use). -/
def errMessage : Option GoError → String
  | none => ""
  | some e => e.message

/-- Modelled from the spec: the `Dsync` engine (its implementation is not
under `src/`), reduced to the five operations of the transport capability
contract (spec §4.1) exactly as the HTTP handler invokes them. -/
structure DsyncModel where
  newReceiveSession : Info → Bool → QMap → Except GoError (String × Manifest)
  receiveBlock : String → String → List Nat → ReceiveResponse
  getDagInfo : String → QMap → Except GoError Info
  getBlock : String → Except GoError (List Nat)
  removeCID : String → QMap → Option GoError

/-- A wire body: either raw text (error messages), a JSON-encoded `dag.Info`,
a JSON-encoded `dag.Manifest`, raw block bytes, or empty. -/
inductive Body
  | empty
  | text (s : String)
  | infoJson (i : Info)
  | manifestJson (m : Manifest)
  | blockBytes (bs : List Nat)
deriving DecidableEq

/-- `ioutil.ReadAll` of a response body, as the string the client turns into
an error message.  Error-path bodies are always `text`; the stand-in strings
for the JSON/bytes cases are never reached by the round trips. -/
def Body.readAll : Body → String
  | .empty => ""
  | .text s => s
  | .infoJson i => String.intercalate "," (i.entries.map (fun e => e.1))
  | .manifestJson m => String.intercalate "," m.nodes
  | .blockBytes bs => String.intercalate "," (bs.map toString)

/-- An HTTP response as the handler writes it: status code, the `sid` header
(when set), and the body. -/
structure HTTPResponse where
  status : Nat
  sidHeader : Option String := none
  body : Body := .empty
deriving DecidableEq

/-- The outcome of one HTTP exchange as seen by the client: either a
transport-level error (request construction or `http.DefaultClient.Do`
failing) or a delivered response. -/
inductive Exchange
  | netErr (e : GoError)
  | resp (r : HTTPResponse)
deriving DecidableEq

/-- `fmt.Sprintf("%t", b)`. -/
def boolString (b : Bool) : String := if b then "true" else "false"

/-! ### HTTPClient (src/dsync/http.go lines 16–206) -/

/-- The query string `HTTPClient.NewReceiveSession` builds (lines 36–41):
`q.Set("pin", fmt.Sprintf("%t", pinOnComplete))`, then one `q.Set(key, val)`
per `meta` entry, so `meta` entries overwrite the pin entry on key collision
(`Finmap.union` is left-biased). -/
def clientOpenQuery (pinOnComplete : Bool) (meta : QMap) : QMap :=
  meta ∪ (Finmap.insert "pin" (boolString pinOnComplete) ∅)

/-- The result triple of `HTTPClient.NewReceiveSession`: session id, diff
manifest, error (Go named returns `(sid, diff, err)`). -/
structure OpenResult where
  sid : String
  diff : Option Manifest
  err : Option GoError
deriving DecidableEq

/-- `HTTPClient.NewReceiveSession` (lines 26–68), as a function of the HTTP
exchange: on a non-200 response it returns the error
`remote response: <status> <body>`; on 200 it takes the session id from the
`sid` header and JSON-decodes the diff manifest from the body (Go allocates
`diff = &dag.Manifest{}` before decoding, so a decode failure still returns a
zero manifest together with the decode error). -/
def clientNewReceiveSession (ex : Exchange) : OpenResult :=
  match ex with
  | .netErr e => ⟨"", none, some e⟩
  | .resp r =>
    if r.status ≠ 200 then
      ⟨"", none, some (.mkError ("remote response: " ++ toString r.status ++ " " ++ r.body.readAll))⟩
    else
      match r.body with
      | .manifestJson m => ⟨r.sidHeader.getD "", some m, none⟩
      | _ => ⟨r.sidHeader.getD "", some ⟨[]⟩, some (.mkError "json: cannot decode manifest")⟩

/-- `HTTPClient.ReceiveBlock` (lines 71–107), as a function of the hash
argument and the HTTP exchange: every return site carries the hash; a
transport error or non-200 response yields `StatusErrored` with a non-nil
error, a 200 response yields `StatusOk` with a nil error. -/
def clientReceiveBlock (hash : String) (ex : Exchange) : ReceiveResponse :=
  match ex with
  | .netErr e => ⟨hash, .errored, some e⟩
  | .resp r =>
    if r.status ≠ 200 then
      ⟨hash, .errored, some (.mkError ("remote error: " ++ toString r.status ++ " " ++ r.body.readAll))⟩
    else
      ⟨hash, .ok, none⟩

/-- The query `HTTPClient.GetDagInfo` builds (lines 115–120): `manifest = id`
then the `meta` entries, `meta` overwriting on collision. -/
def clientGetDagInfoQuery (id : String) (meta : QMap) : QMap :=
  meta ∪ (Finmap.insert "manifest" id ∅)

/-- `HTTPClient.GetDagInfo` (lines 110–144) as a function of the exchange:
non-200 yields the generic error `remote error: <status> <body>`; 200 JSON-
decodes a `dag.Info` from the body. -/
def clientGetDagInfo (ex : Exchange) : Except GoError Info :=
  match ex with
  | .netErr e => .error e
  | .resp r =>
    if r.status ≠ 200 then
      .error (.mkError ("remote error: " ++ toString r.status ++ " " ++ r.body.readAll))
    else
      match r.body with
      | .infoJson i => .ok i
      | _ => .error (.mkError "json: cannot decode dag info")

/-- `ioutil.ReadAll` of a 200 block response body as raw bytes (line 168). -/
def Body.readAllBytes : Body → List Nat
  | .blockBytes bs => bs
  | _ => []

/-- `HTTPClient.GetBlock` (lines 147–169) as a function of the exchange:
non-200 yields the generic error `remote error: <status> <body>`; 200 returns
the body bytes. -/
def clientGetBlock (ex : Exchange) : Except GoError (List Nat) :=
  match ex with
  | .netErr e => .error e
  | .resp r =>
    if r.status ≠ 200 then
      .error (.mkError ("remote error: " ++ toString r.status ++ " " ++ r.body.readAll))
    else
      .ok r.body.readAllBytes

/-- The query `HTTPClient.RemoveCID` builds (lines 177–182): `cid = id` then
the `meta` entries, `meta` overwriting on collision. -/
def clientRemoveQuery (id : String) (meta : QMap) : QMap :=
  meta ∪ (Finmap.insert "cid" id ∅)

/-- `HTTPClient.RemoveCID` (lines 172–206) as a function of the exchange: on
a non-200 response it reads the body, returns the sentinel
`ErrRemoveNotSupported` when the body text equals the sentinel's message
(line 199 compares `msg == ErrRemoveNotSupported.Error()`), and the generic
error `remote: <status> <body>` otherwise; a 200 response returns nil. -/
def clientRemoveCID (ex : Exchange) : Option GoError :=
  match ex with
  | .netErr e => some e
  | .resp r =>
    if r.status ≠ 200 then
      let msg := r.body.readAll
      if msg = ErrRemoveNotSupported.message then
        some ErrRemoveNotSupported
      else
        some (.mkError ("remote: " ++ toString r.status ++ " " ++ msg))
    else
      none

/-! ### HTTPRemoteHandler (src/dsync/http.go lines 210–325) -/

/-- The handler's POST branch (lines 213–245).  The request body is the
JSON-decode result of a `dag.Info` (`json.Decoder.Decode`); a decode failure
answers 400 with the decode error's message.  (The subsequent `info == nil`
check is unreachable in Go: `info` is initialized to `&dag.Info{}` and never
reassigned.)  The pin flag is `FormValue("pin") == "true"`; the meta map is
every query key except `"pin"`.  A `Dsync.NewReceiveSession` error answers
400 with its message; success answers 200 with the session id in the `sid`
header and the JSON-encoded diff in the body. -/
def handlePost (ds : DsyncModel) (q : QMap) (body : Except GoError Info) : HTTPResponse :=
  match body with
  | .error e => { status := 400, body := .text e.message }
  | .ok info =>
    let pinOnComplete := formValue q "pin" == "true"
    let meta := q.erase "pin"
    match ds.newReceiveSession info pinOnComplete meta with
    | .error e => { status := 400, body := .text e.message }
    | .ok (sid, diff) => { status := 200, sidHeader := some sid, body := .manifestJson diff }

/-- The handler's PUT branch (lines 247–265).  The raw body read
(`ioutil.ReadAll`) may fail, answering 400; otherwise
`Dsync.ReceiveBlock(FormValue("sid"), FormValue("hash"), data)` is consulted:
`StatusErrored` answers 500 with the error message, `StatusRetry` answers 400
with the error message, anything else (`StatusOk`) answers 200. -/
def handlePut (ds : DsyncModel) (q : QMap) (body : Except GoError (List Nat)) : HTTPResponse :=
  match body with
  | .error e => { status := 400, body := .text e.message }
  | .ok data =>
    let res := ds.receiveBlock (formValue q "sid") (formValue q "hash") data
    if res.Status = StatusErrored then
      { status := 500, body := .text (errMessage res.Err) }
    else if res.Status = StatusRetry then
      { status := 400, body := .text (errMessage res.Err) }
    else
      { status := 200 }

/-- Which `Dsync` operation the handler's GET branch invoked, if any. -/
inductive GetCall
  | dagInfo (id : String) (meta : QMap)
  | block (id : String)
deriving DecidableEq

/-- The handler's GET branch (lines 266–306), returning the response together
with the `Dsync` call it made.  Both `manifest` and `block` empty answers 400
with no `Dsync` call; a non-empty `manifest` serves the DAG info (meta is
every query key except `"manifest"`, so a `block` parameter flows into meta),
500 with the message on error; otherwise a non-empty `block` serves the block
bytes, 500 with the message on error.  (The `json.Marshal` failure branch is
dead for these values and is not modelled.) -/
def handleGet (ds : DsyncModel) (q : QMap) : HTTPResponse × Option GetCall :=
  let mfstID := formValue q "manifest"
  let blockID := formValue q "block"
  if mfstID = "" ∧ blockID = "" then
    ({ status := 400, body := .text "either manifest or block query params are required" }, none)
  else if mfstID ≠ "" then
    let meta := q.erase "manifest"
    (match ds.getDagInfo mfstID meta with
      | .error e => { status := 500, body := .text e.message }
      | .ok i => { status := 200, body := .infoJson i }, some (.dagInfo mfstID meta))
  else
    (match ds.getBlock blockID with
      | .error e => { status := 500, body := .text e.message }
      | .ok bs => { status := 200, body := .blockBytes bs }, some (.block blockID))

/-- The handler's DELETE branch (lines 307–322): cid from the `cid` query
parameter, meta from every other query key; a `Dsync.RemoveCID` error answers
500 with the error's message, success answers 200. -/
def handleDelete (ds : DsyncModel) (q : QMap) : HTTPResponse :=
  let cid := formValue q "cid"
  let meta := q.erase "cid"
  match ds.removeCID cid meta with
  | some e => { status := 500, body := .text e.message }
  | none => { status := 200 }

/-- A parsed HTTP request as the handler sees it. -/
structure Request where
  method : String
  query : QMap
  jsonBody : Except GoError Info := .error (.mkError "EOF")
  rawBody : Except GoError (List Nat) := .ok []

/-- `HTTPRemoteHandler` (lines 210–325): dispatch on the request method.  An
unhandled method writes nothing, which Go's `net/http` turns into an empty
200 response. -/
def HTTPRemoteHandler (ds : DsyncModel) (r : Request) : HTTPResponse :=
  match r.method with
  | "POST" => handlePost ds r.query r.jsonBody
  | "PUT" => handlePut ds r.query r.rawBody
  | "GET" => (handleGet ds r.query).1
  | "DELETE" => handleDelete ds r.query
  | _ => { status := 200 }

/-! ### Client/handler round trips (no network failure) -/

/-- The remove round trip: `HTTPClient.RemoveCID` against `HTTPRemoteHandler`
over `ds`, with the client's id and meta arguments. -/
def roundTripRemoveCID (ds : DsyncModel) (id : String) (meta : QMap) : Option GoError :=
  clientRemoveCID (.resp (HTTPRemoteHandler ds { method := "DELETE", query := clientRemoveQuery id meta }))

/-- The push-block round trip: `HTTPClient.ReceiveBlock` against
`HTTPRemoteHandler` over `ds` (the client builds the query
`?sid=<sid>&hash=<hash>` and sends the data as the body). -/
def roundTripReceiveBlock (ds : DsyncModel) (sid hash : String) (data : List Nat) : ReceiveResponse :=
  clientReceiveBlock hash (.resp (HTTPRemoteHandler ds
    { method := "PUT"
      query := Finmap.insert "sid" sid (Finmap.insert "hash" hash ∅)
      rawBody := .ok data }))

/-- The open-session round trip: `HTTPClient.NewReceiveSession` against
`HTTPRemoteHandler` over `ds`. -/
def roundTripNewReceiveSession (ds : DsyncModel) (info : Info) (pinOnComplete : Bool)
    (meta : QMap) : OpenResult :=
  clientNewReceiveSession (.resp (HTTPRemoteHandler ds
    { method := "POST", query := clientOpenQuery pinOnComplete meta, jsonBody := .ok info }))

/-- The fetch-DAG-info round trip: `HTTPClient.GetDagInfo` against
`HTTPRemoteHandler` over `ds`. -/
def roundTripGetDagInfo (ds : DsyncModel) (id : String) (meta : QMap) : Except GoError Info :=
  clientGetDagInfo (.resp (HTTPRemoteHandler ds
    { method := "GET", query := clientGetDagInfoQuery id meta }))

/-- The fetch-block round trip: `HTTPClient.GetBlock` against
`HTTPRemoteHandler` over `ds` (the client builds the query `?block=<id>`). -/
def roundTripGetBlock (ds : DsyncModel) (id : String) : Except GoError (List Nat) :=
  clientGetBlock (.resp (HTTPRemoteHandler ds
    { method := "GET", query := Finmap.insert "block" id ∅ }))

end DagSync

namespace DagSync

/-! ### Helper lemmas on query maps -/

/-- Looking up `k` in `m ∪ {k ↦ v}` when `k` is not a key of `m` finds `v`. -/
theorem lookup_union_single (k v : String) (m : QMap) (h : k ∉ m) :
    (m ∪ (Finmap.insert k v ∅)).lookup k = some v := by
  rw [Finmap.lookup_union_right h, Finmap.lookup_insert]

/-- Erasing `k` from `m ∪ {k ↦ v}` when `k` is not a key of `m` recovers `m`. -/
theorem erase_union_single (k v : String) (m : QMap) (h : k ∉ m) :
    (m ∪ (Finmap.insert k v ∅)).erase k = m := by
  apply Finmap.ext_lookup
  intro x
  by_cases hx : x = k
  · subst hx
    rw [Finmap.lookup_erase]
    exact (Finmap.lookup_eq_none.mpr h).symm
  · rw [Finmap.lookup_erase_ne hx]
    by_cases hm : x ∈ m
    · rw [Finmap.lookup_union_left hm]
    · rw [Finmap.lookup_union_right hm, Finmap.lookup_insert_of_ne _ hx, Finmap.lookup_empty]
      exact (Finmap.lookup_eq_none.mpr hm).symm

/-- Looking up any key other than `k` in `m ∪ {k ↦ v}` agrees with `m`. -/
theorem lookup_union_single_ne (k v x : String) (m : QMap) (hx : x ≠ k) :
    (m ∪ (Finmap.insert k v ∅)).lookup x = m.lookup x := by
  by_cases hm : x ∈ m
  · rw [Finmap.lookup_union_left hm]
  · rw [Finmap.lookup_union_right hm, Finmap.lookup_insert_of_ne _ hx, Finmap.lookup_empty]
    exact (Finmap.lookup_eq_none.mpr hm).symm

/-- `boolString` round-trips through the handler's `== "true"` test. -/
theorem boolString_beq_true (b : Bool) : (boolString b == "true") = b := by
  cases b <;> decide

/-! ### Stub Dsync models used for concrete instantiations -/

/-- A simple `Dsync` model: opening a session fails, a pushed block is
stored, lookups answer not-found, removes succeed. -/
def dsStub : DsyncModel where
  newReceiveSession := fun _ _ _ => .error (.mkError "open failed")
  receiveBlock := fun _ hash _ => ⟨hash, .ok, none⟩
  getDagInfo := fun _ _ => .error .notFound
  getBlock := fun _ => .error .notFound
  removeCID := fun _ _ => none

/-- A `Dsync` model whose block receive always reports a retryable failure. -/
def dsRetryBlock : DsyncModel :=
  { dsStub with receiveBlock := fun _ hash _ => ⟨hash, .retry, some (.mkError "try again")⟩ }

/-- A `Dsync` model whose block receive always reports a fatal failure. -/
def dsErroredBlock : DsyncModel :=
  { dsStub with receiveBlock := fun _ hash _ => ⟨hash, .errored, some (.mkError "store failed")⟩ }

/-- A `Dsync` model that does not support removes: `RemoveCID` returns the
`ErrRemoveNotSupported` sentinel. -/
def dsRemoveUnsupported : DsyncModel :=
  { dsStub with removeCID := fun _ _ => some ErrRemoveNotSupported }

/-- A `Dsync` model whose remove fails with a generic error. -/
def dsRemoveFails : DsyncModel :=
  { dsStub with removeCID := fun _ _ => some (.mkError "disk full") }

/-- A `Dsync` model whose remove fails with a generic error that is not the
sentinel but happens to carry the sentinel's message text. -/
def dsRemoveImpostor : DsyncModel :=
  { dsStub with removeCID := fun _ _ => some (.mkError "remove is not supported") }

/-- A `Dsync` model that opens every session as `sess1` with diff `[a]`. -/
def dsOpenOk : DsyncModel :=
  { dsStub with newReceiveSession := fun _ _ _ => .ok ("sess1", ⟨["a"]⟩) }

end DagSync

deriving instance DecidableEq for Except

namespace DagSync

/-! ### Query-extraction lemmas for the PUT round trip -/

/-- The PUT query the client builds (`?sid=<sid>&hash=<hash>`) yields the
session id under `sid`. -/
theorem putQuery_sid (sid hash : String) :
    formValue (Finmap.insert "sid" sid (Finmap.insert "hash" hash ∅)) "sid" = sid := by
  simp [formValue, Finmap.lookup_insert]

/-- The PUT query the client builds yields the block hash under `hash`. -/
theorem putQuery_hash (sid hash : String) :
    formValue (Finmap.insert "sid" sid (Finmap.insert "hash" hash ∅)) "hash" = hash := by
  have h1 : ("hash" : String) ≠ "sid" := by decide
  simp [formValue, Finmap.lookup_insert_of_ne _ h1, Finmap.lookup_insert]

/-! ### Claim theorems -/

/-- Claim C8: every call to `HTTPClient.ReceiveBlock` resolves to exactly one
outcome carrying the block identifier it refers to — for every hash argument
and every HTTP exchange, the returned `ReceiveResponse` has `Hash` equal to
the hash argument; it is `StatusOk` with a nil `Err` or `StatusErrored` with
a non-nil `Err`; and it is `StatusOk` exactly when the remote answered a 200
response. -/
theorem receiveBlock_resolves_with_hash (hash : String) (ex : Exchange) :
    (clientReceiveBlock hash ex).Hash = hash ∧
    ((clientReceiveBlock hash ex).Status = StatusOk ∧ (clientReceiveBlock hash ex).Err = none ∨
      (clientReceiveBlock hash ex).Status = StatusErrored ∧ (clientReceiveBlock hash ex).Err ≠ none) ∧
    ((clientReceiveBlock hash ex).Status = StatusOk ↔ ∃ r, ex = .resp r ∧ r.status = 200) := by
  cases ex with
  | netErr e => simp [clientReceiveBlock, StatusOk, StatusErrored]
  | resp r =>
    by_cases h : r.status = 200
    · simp [clientReceiveBlock, h, StatusOk, StatusErrored]
    · simp [clientReceiveBlock, h, StatusOk, StatusErrored]

/-- Claim C2 counterexample: a fatal failure from the underlying
`Dsync.ReceiveBlock` (`StatusErrored`) is answered by the handler's PUT
branch with status 500, which is not a 4xx status, refuting the claim that
fatal/protocol errors get a 4xx response. -/
theorem put_fatal_gets_500_not_4xx :
    (handlePut dsErroredBlock (Finmap.insert "sid" "s1" (Finmap.insert "hash" "h1" ∅))
        (.ok [1])).status = 500 ∧
    ¬(400 ≤ (handlePut dsErroredBlock (Finmap.insert "sid" "s1" (Finmap.insert "hash" "h1" ∅))
        (.ok [1])).status ∧
      (handlePut dsErroredBlock (Finmap.insert "sid" "s1" (Finmap.insert "hash" "h1" ∅))
        (.ok [1])).status < 500) := by decide

/-- Claim C2 (amended): in the push-block HTTP mapping the server responds
200 exactly when the block was stored (`StatusOk`); the three statuses of the
underlying `Dsync.ReceiveBlock` map to distinct codes — 200 for `StatusOk`,
400 for `StatusRetry`, 500 for `StatusErrored` — so retryable failures are
distinguished from fatal ones, but the fatal code is 500 (5xx), not 4xx. -/
theorem put_status_mapping (ds : DsyncModel) (q : QMap) (data : List Nat) :
    (handlePut ds q (.ok data)).status =
      (match (ds.receiveBlock (formValue q "sid") (formValue q "hash") data).Status with
        | .ok => 200
        | .retry => 400
        | .errored => 500) ∧
    ((handlePut ds q (.ok data)).status = 200 ↔
      (ds.receiveBlock (formValue q "sid") (formValue q "hash") data).Status = StatusOk) := by
  cases h : (ds.receiveBlock (formValue q "sid") (formValue q "hash") data).Status <;>
    simp [handlePut, h, StatusOk, StatusRetry, StatusErrored]

/-- Claim C3 counterexample: when the server-side `Dsync.ReceiveBlock`
produces `StatusRetry`, the composed client returns `StatusErrored`, not
`StatusRetry` — the client collapses every non-200 response to
`StatusErrored`, so the retryable/fatal distinction is not preserved. -/
theorem receiveBlock_roundtrip_retry_not_preserved :
    (dsRetryBlock.receiveBlock "s1" "h1" [1, 2]).Status = StatusRetry ∧
    (roundTripReceiveBlock dsRetryBlock "s1" "h1" [1, 2]).Status = StatusErrored ∧
    (roundTripReceiveBlock dsRetryBlock "s1" "h1" [1, 2]).Status ≠
      (dsRetryBlock.receiveBlock "s1" "h1" [1, 2]).Status := by decide

/-- Claim C3 (amended): composing `HTTPClient.ReceiveBlock` with
`HTTPRemoteHandler` preserves success/failure — the client's status is
`StatusOk` exactly when the server-side `Dsync.ReceiveBlock` produced
`StatusOk` — but any server-side failure (`StatusRetry` or `StatusErrored`)
surfaces at the client as `StatusErrored`. -/
theorem receiveBlock_roundtrip_status (ds : DsyncModel) (sid hash : String) (data : List Nat) :
    ((roundTripReceiveBlock ds sid hash data).Status = StatusOk ↔
      (ds.receiveBlock sid hash data).Status = StatusOk) ∧
    ((ds.receiveBlock sid hash data).Status ≠ StatusOk →
      (roundTripReceiveBlock ds sid hash data).Status = StatusErrored) := by
  have hs := putQuery_sid sid hash
  have hh := putQuery_hash sid hash
  cases h : (ds.receiveBlock sid hash data).Status <;>
    simp [roundTripReceiveBlock, HTTPRemoteHandler, handlePut, clientReceiveBlock, hs, hh, h,
      StatusOk, StatusRetry, StatusErrored]

/-- Claim C3 (amended) witness: at the retrying `Dsync` model the round trip
yields `StatusErrored`. -/
theorem receiveBlock_roundtrip_status_witness :
    ((roundTripReceiveBlock dsRetryBlock "s" "h" []).Status = StatusOk ↔
      (dsRetryBlock.receiveBlock "s" "h" []).Status = StatusOk) ∧
    (roundTripReceiveBlock dsRetryBlock "s" "h" []).Status = StatusErrored :=
  ⟨(receiveBlock_roundtrip_status dsRetryBlock "s" "h" []).1,
    (receiveBlock_roundtrip_status dsRetryBlock "s" "h" []).2 (by decide)⟩

end DagSync

namespace DagSync

/-- Claim C1 counterexample: a failing remove whose underlying error is not
the `ErrRemoveNotSupported` sentinel but carries the same message text is
returned by the client as the sentinel, not as a generic error carrying the
status code and body — the wire only transmits the message string, and the
client compares that string (src/dsync/http.go line 199). -/
theorem remove_impostor_returns_sentinel :
    dsRemoveImpostor.removeCID "QmFoo" ∅ = some (GoError.mkError "remove is not supported") ∧
    GoError.mkError "remove is not supported" ≠ ErrRemoveNotSupported ∧
    roundTripRemoveCID dsRemoveImpostor "QmFoo" ∅ = some ErrRemoveNotSupported ∧
    roundTripRemoveCID dsRemoveImpostor "QmFoo" ∅ ≠
      some (GoError.mkError ("remote: " ++ toString (500 : Nat) ++ " " ++ "remove is not supported")) := by
  decide

/-- Claim C1 (amended): over the remove round trip, an underlying
`ErrRemoveNotSupported` comes back to the caller as exactly the
`ErrRemoveNotSupported` sentinel; any other failing remove whose error
message differs from the sentinel's message comes back as the generic error
`remote: <status> <body>`; a successful remove comes back as nil. -/
theorem remove_roundtrip_sentinel (ds : DsyncModel) (id : String) (meta : QMap)
    (hm : "cid" ∉ meta) :
    (ds.removeCID id meta = some ErrRemoveNotSupported →
      roundTripRemoveCID ds id meta = some ErrRemoveNotSupported) ∧
    (∀ e, ds.removeCID id meta = some e → e.message ≠ ErrRemoveNotSupported.message →
      roundTripRemoveCID ds id meta =
        some (.mkError ("remote: " ++ toString (500 : Nat) ++ " " ++ e.message))) ∧
    (ds.removeCID id meta = none → roundTripRemoveCID ds id meta = none) := by
  have hcid : formValue (clientRemoveQuery id meta) "cid" = id := by
    simp [formValue, clientRemoveQuery, lookup_union_single _ _ _ hm]
  have hmeta : (clientRemoveQuery id meta).erase "cid" = meta := erase_union_single _ _ _ hm
  refine ⟨?_, ?_, ?_⟩
  · intro h
    simp [roundTripRemoveCID, HTTPRemoteHandler, handleDelete, clientRemoveCID, hcid, hmeta, h,
      Body.readAll, ErrRemoveNotSupported]
  · intro e he hne
    simp [roundTripRemoveCID, HTTPRemoteHandler, handleDelete, clientRemoveCID, hcid, hmeta, he,
      Body.readAll, hne]
  · intro h
    simp [roundTripRemoveCID, HTTPRemoteHandler, handleDelete, clientRemoveCID, hcid, hmeta, h]

/-- Claim C1 (amended) witness: the sentinel round-trips at a concrete model,
and a distinct-message failure comes back generic. -/
theorem remove_roundtrip_sentinel_witness :
    roundTripRemoveCID dsRemoveUnsupported "QmFoo" ∅ = some ErrRemoveNotSupported ∧
    roundTripRemoveCID dsRemoveFails "QmFoo" ∅ =
      some (.mkError ("remote: " ++ toString (500 : Nat) ++ " " ++ "disk full")) :=
  ⟨(remove_roundtrip_sentinel dsRemoveUnsupported "QmFoo" ∅ (by decide)).1 rfl,
    (remove_roundtrip_sentinel dsRemoveFails "QmFoo" ∅ (by decide)).2.1
      (.mkError "disk full") rfl (by decide)⟩

/-- Claim C7 counterexample: at the same 500 status the client returns the
sentinel or not depending only on the response body text, so
`HTTPClient.RemoveCID` recognizes the sentinel precisely by comparing the
serialized message text of the response body, contrary to the claim. -/
theorem remove_recognition_depends_on_body_text :
    clientRemoveCID (.resp ⟨500, none, .text "remove is not supported"⟩) =
      some ErrRemoveNotSupported ∧
    clientRemoveCID (.resp ⟨500, none, .text "internal error"⟩) ≠
      some ErrRemoveNotSupported := by decide

/-- Claim C7 (amended): for every non-200 response, `HTTPClient.RemoveCID`
returns the `ErrRemoveNotSupported` sentinel exactly when the response body
text equals the sentinel's serialized message — the recognition is a string
match on the body, not a typed condition carried by the wire protocol. -/
theorem remove_sentinel_iff_body_matches (s : Nat) (hdr : Option String) (b : String)
    (h : s ≠ 200) :
    clientRemoveCID (.resp ⟨s, hdr, .text b⟩) = some ErrRemoveNotSupported ↔
      b = ErrRemoveNotSupported.message := by
  by_cases hb : b = ErrRemoveNotSupported.message <;>
    simp [clientRemoveCID, h, hb, Body.readAll, ErrRemoveNotSupported]

/-- Claim C7 (amended) witness: a 404 whose body is the sentinel's message is
recognized as the sentinel. -/
theorem remove_sentinel_iff_body_matches_witness :
    clientRemoveCID (.resp ⟨404, none, .text "remove is not supported"⟩) =
      some ErrRemoveNotSupported :=
  (remove_sentinel_iff_body_matches 404 none "remove is not supported" (by decide)).mpr rfl

/-- Claim C4 counterexample: with an underlying `Dsync` that answers
not-found, both `GetDagInfo` and `GetBlock` deliver to the caller a generic
`remote error: <status> <body>` error, not a typed not-found condition — the
typed condition does not survive the HTTP round trip. -/
theorem get_notfound_is_generic :
    dsStub.getDagInfo "QmFoo" ∅ = .error GoError.notFound ∧
    dsStub.getBlock "QmFoo" = .error GoError.notFound ∧
    roundTripGetDagInfo dsStub "QmFoo" ∅ = .error (GoError.mkError "remote error: 500 not found") ∧
    roundTripGetDagInfo dsStub "QmFoo" ∅ ≠ .error GoError.notFound ∧
    roundTripGetBlock dsStub "QmFoo" = .error (GoError.mkError "remote error: 500 not found") ∧
    roundTripGetBlock dsStub "QmFoo" ≠ .error GoError.notFound := by decide

/-- Claim C4 (amended): any failure of the underlying `Dsync.GetDagInfo` or
`Dsync.GetBlock` — not-found included — reaches the caller as the generic
error `remote error: <status> <body>` built from the serialized message; no
typed/sentinel not-found condition is recoverable by the caller. -/
theorem get_errors_are_generic (ds : DsyncModel) (id : String) (meta : QMap)
    (e1 e2 : GoError) (hid : id ≠ "") (hm : "manifest" ∉ meta)
    (h1 : ds.getDagInfo id meta = .error e1) (h2 : ds.getBlock id = .error e2) :
    roundTripGetDagInfo ds id meta =
      .error (.mkError ("remote error: " ++ toString (500 : Nat) ++ " " ++ e1.message)) ∧
    roundTripGetBlock ds id =
      .error (.mkError ("remote error: " ++ toString (500 : Nat) ++ " " ++ e2.message)) := by
  have hmfst : formValue (clientGetDagInfoQuery id meta) "manifest" = id := by
    simp [formValue, clientGetDagInfoQuery, lookup_union_single _ _ _ hm]
  have hmeta : (clientGetDagInfoQuery id meta).erase "manifest" = meta :=
    erase_union_single _ _ _ hm
  have hbq1 : formValue (Finmap.insert "block" id ∅) "manifest" = "" := by
    have hne : ("manifest" : String) ≠ "block" := by decide
    simp [formValue, Finmap.lookup_insert_of_ne _ hne, Finmap.lookup_empty]
  have hbq2 : formValue (Finmap.insert "block" id ∅) "block" = id := by
    simp [formValue, Finmap.lookup_insert]
  constructor
  · simp [roundTripGetDagInfo, HTTPRemoteHandler, handleGet, clientGetDagInfo, hmfst, hmeta,
      hid, h1, Body.readAll]
  · simp [roundTripGetBlock, HTTPRemoteHandler, handleGet, clientGetBlock, hbq1, hbq2,
      hid, h2, Body.readAll]

/-- Claim C4 (amended) witness: the not-found answers of a concrete model
come back generic through both round trips. -/
theorem get_errors_are_generic_witness :
    roundTripGetDagInfo dsStub "QmFoo" ∅ =
      .error (.mkError ("remote error: " ++ toString (500 : Nat) ++ " " ++ GoError.notFound.message)) ∧
    roundTripGetBlock dsStub "QmFoo" =
      .error (.mkError ("remote error: " ++ toString (500 : Nat) ++ " " ++ GoError.notFound.message)) :=
  get_errors_are_generic dsStub "QmFoo" ∅ GoError.notFound GoError.notFound
    (by decide) (by decide) rfl rfl

end DagSync

namespace DagSync

/-- Claim C5: the open-session exchange — the query the client sends carries
the pin flag under `pin` and every metadata entry under its own key; a 200
response yields the session id taken from the `sid` header together with the
JSON-decoded diff manifest; any non-200 response yields an error containing
the status code and response body; and compositing with the handler, a
successful server-side session open round-trips the session id and diff to
the caller. -/
theorem open_session_roundtrip (ds : DsyncModel) (info : Info) (pin : Bool) (meta : QMap)
    (sid : String) (diff : Manifest) (s : Nat) (hdr : Option String) (msg : String)
    (hm : "pin" ∉ meta) :
    ((clientOpenQuery pin meta).lookup "pin" = some (boolString pin) ∧
      ∀ k, k ≠ "pin" → (clientOpenQuery pin meta).lookup k = meta.lookup k) ∧
    clientNewReceiveSession (.resp ⟨200, some sid, .manifestJson diff⟩) = ⟨sid, some diff, none⟩ ∧
    (s ≠ 200 → clientNewReceiveSession (.resp ⟨s, hdr, .text msg⟩) =
      ⟨"", none, some (.mkError ("remote response: " ++ toString s ++ " " ++ msg))⟩) ∧
    (ds.newReceiveSession info pin meta = .ok (sid, diff) →
      roundTripNewReceiveSession ds info pin meta = ⟨sid, some diff, none⟩) := by
  have hpin : formValue (clientOpenQuery pin meta) "pin" = boolString pin := by
    simp [formValue, clientOpenQuery, lookup_union_single _ _ _ hm]
  have hmeta : (clientOpenQuery pin meta).erase "pin" = meta := erase_union_single _ _ _ hm
  refine ⟨⟨lookup_union_single _ _ _ hm, fun k hk => lookup_union_single_ne _ _ _ _ hk⟩,
    ?_, ?_, ?_⟩
  · simp [clientNewReceiveSession]
  · intro hs
    simp [clientNewReceiveSession, hs, Body.readAll]
  · intro h
    simp [roundTripNewReceiveSession, HTTPRemoteHandler, handlePost, clientNewReceiveSession,
      hpin, hmeta, boolString_beq_true, h]

/-- Claim C5 witness: a concrete open session round-trips `sess1` and the
one-block diff, and a concrete 404 yields the status-and-body error. -/
theorem open_session_roundtrip_witness :
    roundTripNewReceiveSession dsOpenOk ⟨[]⟩ true ∅ = ⟨"sess1", some ⟨["a"]⟩, none⟩ ∧
    clientNewReceiveSession (.resp ⟨404, none, .text "denied"⟩) =
      ⟨"", none, some (.mkError ("remote response: " ++ toString (404 : Nat) ++ " " ++ "denied"))⟩ :=
  ⟨(open_session_roundtrip dsOpenOk ⟨[]⟩ true ∅ "sess1" ⟨["a"]⟩ 404 none "denied"
      (by decide)).2.2.2 rfl,
    (open_session_roundtrip dsOpenOk ⟨[]⟩ true ∅ "sess1" ⟨["a"]⟩ 404 none "denied"
      (by decide)).2.2.1 (by decide)⟩

/-- Claim C6: for every meta map without the reserved key `pin`, the meta map
and pin flag the handler's POST branch passes to the underlying
`Dsync.NewReceiveSession` equal exactly the meta map and `pinOnComplete` flag
the `HTTPClient` caller supplied: erasing `pin` from the client's query
recovers the caller's meta map, the handler's `pin == "true"` test recovers
the caller's flag, and the handler consults the `Dsync` at exactly
`(info, pinOnComplete, meta)`. -/
theorem open_session_meta_pin_passthrough (ds : DsyncModel) (info : Info) (pin : Bool)
    (meta : QMap) (hm : "pin" ∉ meta) :
    (clientOpenQuery pin meta).erase "pin" = meta ∧
    (formValue (clientOpenQuery pin meta) "pin" == "true") = pin ∧
    handlePost ds (clientOpenQuery pin meta) (.ok info) =
      (match ds.newReceiveSession info pin meta with
        | .error e => { status := 400, body := .text e.message }
        | .ok (sid, diff) =>
          { status := 200, sidHeader := some sid, body := .manifestJson diff }) := by
  have hpin : formValue (clientOpenQuery pin meta) "pin" = boolString pin := by
    simp [formValue, clientOpenQuery, lookup_union_single _ _ _ hm]
  have hmeta : (clientOpenQuery pin meta).erase "pin" = meta := erase_union_single _ _ _ hm
  refine ⟨hmeta, by rw [hpin, boolString_beq_true], ?_⟩
  cases h : ds.newReceiveSession info pin meta <;>
    simp [handlePost, hpin, hmeta, boolString_beq_true, h]

/-- Claim C6 witness: a concrete one-entry meta map and a `false` flag pass
through unchanged. -/
theorem open_session_meta_pin_passthrough_witness :
    (clientOpenQuery false (Finmap.insert "k" "v" ∅)).erase "pin" = Finmap.insert "k" "v" ∅ ∧
    (formValue (clientOpenQuery false (Finmap.insert "k" "v" ∅)) "pin" == "true") = false :=
  ⟨(open_session_meta_pin_passthrough dsStub ⟨[]⟩ false (Finmap.insert "k" "v" ∅)
      (by decide)).1,
    (open_session_meta_pin_passthrough dsStub ⟨[]⟩ false (Finmap.insert "k" "v" ∅)
      (by decide)).2.1⟩

/-- Claim C9: when the caller's meta map contains the key `pin`, the meta
entry overwrites the pin flag in the query `HTTPClient.NewReceiveSession`
builds — the `pin` query parameter sent to the remote is `meta["pin"]`, and
the query is identical for both values of the `pinOnComplete` argument, so
that argument is silently ignored. -/
theorem open_session_meta_pin_overrides (pin pin2 : Bool) (meta : QMap) (hm : "pin" ∈ meta) :
    (clientOpenQuery pin meta).lookup "pin" = meta.lookup "pin" ∧
    clientOpenQuery pin meta = clientOpenQuery pin2 meta := by
  constructor
  · exact Finmap.lookup_union_left hm
  · apply Finmap.ext_lookup
    intro x
    simp only [clientOpenQuery]
    by_cases hx : x ∈ meta
    · rw [Finmap.lookup_union_left hx, Finmap.lookup_union_left hx]
    · rw [Finmap.lookup_union_right hx, Finmap.lookup_union_right hx]
      by_cases hp : x = "pin"
      · subst hp
        exact absurd hm hx
      · rw [Finmap.lookup_insert_of_ne _ hp, Finmap.lookup_insert_of_ne _ hp]

/-- Claim C9 witness: with `meta = {pin ↦ maybe}` the query's `pin` value is
`maybe` and the query does not depend on the `pinOnComplete` argument. -/
theorem open_session_meta_pin_overrides_witness :
    (clientOpenQuery true (Finmap.insert "pin" "maybe" ∅)).lookup "pin" = some "maybe" ∧
    clientOpenQuery true (Finmap.insert "pin" "maybe" ∅) =
      clientOpenQuery false (Finmap.insert "pin" "maybe" ∅) := by
  have h := open_session_meta_pin_overrides true false (Finmap.insert "pin" "maybe" ∅)
    (by decide)
  exact ⟨h.1.trans (Finmap.lookup_insert _), h.2⟩

/-- Claim C10: the handler's GET branch — when both `manifest` and `block`
query parameters are empty it answers 400 and consults no `Dsync` operation;
when `manifest` is non-empty it serves the DAG info, consulting only
`GetDagInfo`, whatever the `block` parameter holds; only when `manifest` is
empty and `block` non-empty does it serve the block bytes via `GetBlock`. -/
theorem get_dispatch (ds : DsyncModel) (q : QMap) :
    (formValue q "manifest" = "" → formValue q "block" = "" →
      handleGet ds q =
        ({ status := 400, body := .text "either manifest or block query params are required" },
          none)) ∧
    (formValue q "manifest" ≠ "" →
      handleGet ds q =
        ((match ds.getDagInfo (formValue q "manifest") (q.erase "manifest") with
          | .error e => { status := 500, body := .text e.message }
          | .ok i => { status := 200, body := .infoJson i }),
          some (.dagInfo (formValue q "manifest") (q.erase "manifest")))) ∧
    (formValue q "manifest" = "" → formValue q "block" ≠ "" →
      handleGet ds q =
        ((match ds.getBlock (formValue q "block") with
          | .error e => { status := 500, body := .text e.message }
          | .ok bs => { status := 200, body := .blockBytes bs }),
          some (.block (formValue q "block")))) := by
  refine ⟨fun h1 h2 => ?_, fun h1 => ?_, fun h1 h2 => ?_⟩
  · simp [handleGet, h1, h2]
  · simp [handleGet, h1]
  · simp [handleGet, h1, h2]

/-- Claim C10 witness: at an empty query the GET branch answers 400 with no
`Dsync` call. -/
theorem get_dispatch_witness :
    handleGet dsStub ∅ =
      ({ status := 400, body := .text "either manifest or block query params are required" },
        none) :=
  (get_dispatch dsStub ∅).1 (by decide) (by decide)

end DagSync
